import Mathlib

/-!
Verification of the Climber-Engine ledger/balance-sheet logic.

Shallow embedding of the computations in
`src/components/TechnicalDebtBalanceSheet.tsx`,
`src/services/technicalDebtService.ts` and the code-record page
(`handleDeleteRecord`), plus engine parts that live only in the backend
and are modelled from the specification (marked `Modelled from the spec:`).

Numbers are modelled as rationals (JavaScript numbers used for scores and
ratios), ids and counts as naturals, timestamps as integers (epoch values;
the TypeScript declarations carry them as ISO strings, only their
difference matters here).
-/

/-! ## Enumerations from the TypeScript declarations -/

/-- The enum `severity: 'critical' | 'high' | 'medium' | 'low'` in
`technicalDebtService.ts`. -/
inductive Severity where
  | critical
  | high
  | medium
  | low
deriving DecidableEq, Repr

/-- The enum `status: 'open' | 'in_progress' | 'resolved' | 'ignored' | 'wont_fix'`
in `technicalDebtService.ts` (the `'open'` literal is spelled `opened`
because `open` is a Lean keyword). -/
inductive DebtStatus where
  | opened
  | in_progress
  | resolved
  | ignored
  | wont_fix
deriving DecidableEq, Repr

/-- The `completion_status` of a tech asset: `not_started|in_progress|completed`. -/
inductive CompletionStatus where
  | not_started
  | in_progress
  | completed
deriving DecidableEq, Repr

/-! ## Record shapes (interfaces of the source) -/

/-- The `TechAsset` interface of `TechnicalDebtBalanceSheet.tsx`. -/
structure TechAsset where
  id : Nat
  project_name : String
  technology_used : String
  completion_status : CompletionStatus
  ai_assistance_level : ℚ
  category : String
  value_score : ℚ
deriving DecidableEq, Repr

/-- The `TechNetAsset` interface of `TechnicalDebtBalanceSheet.tsx`. -/
structure TechNetAsset where
  id : Nat
  technology_name : String
  proficiency_level : String
  proficiency_score : ℚ
  category : String
  mastery_score : ℚ
deriving DecidableEq, Repr

/-- The `TechDebt` interface of `TechnicalDebtBalanceSheet.tsx`. -/
structure TechDebt where
  id : Nat
  technology_name : String
  urgency_level : String
  importance_score : ℚ
  target_proficiency_level : String
  estimated_learning_hours : ℚ
deriving DecidableEq, Repr

/-- The `TechnicalDebt` interface of `technicalDebtService.ts` (lines 4-23).
Note that `age_days` is declared as a plain stored field of the record,
next to `first_detected` and `resolved_at`. -/
structure TechnicalDebt where
  id : Nat
  code_record_id : Nat
  title : String
  description : String
  debt_type : String
  category : Option String
  file_path : Option String
  line_start : Option Nat
  line_end : Option Nat
  severity : Severity
  priority : ℤ
  impact_score : ℚ
  effort_estimate : ℚ
  status : DebtStatus
  age_days : ℚ
  created_at : ℤ
  first_detected : ℤ
  resolved_at : Option ℤ
deriving DecidableEq, Repr

/-- The `summary` part of the `TechnicalDebtSummary` interface. -/
structure DebtSummaryCore where
  total_debts : Nat
  open_debts : Nat
  resolved_debts : Nat
  resolution_rate : ℚ
  total_impact_score : ℚ
  total_estimated_effort_minutes : ℚ
  total_estimated_effort_hours : ℚ
deriving DecidableEq, Repr

/-- The `TechnicalDebtSummary` interface of `technicalDebtService.ts`:
summary core plus severity/type distributions (lists of name-count pairs). -/
structure TechnicalDebtSummary where
  summary : DebtSummaryCore
  severity_distribution : List (String × Nat)
  type_distribution : List (String × Nat)
deriving DecidableEq, Repr

/-- The component state of `TechnicalDebtBalanceSheet` that the balance
computations read: the fetched record lists plus auxiliary UI fields. -/
structure BalanceSheetState where
  debtSummary : Option TechnicalDebtSummary
  techAssets : List TechAsset
  techNetAssets : List TechNetAsset
  techDebts : List TechDebt
  loading : Bool
  error : Option String
deriving DecidableEq, Repr

/-! ## Balance-sheet computations (TechnicalDebtBalanceSheet.tsx) -/

/-- JavaScript `x || 0` applied to an in-range number: `0` stays `0`,
anything else is kept (the guard only matters for `undefined`/`NaN`,
which the typed model excludes). -/
def jsOrZero (x : ℚ) : ℚ :=
  if x = 0 then 0 else x

/-- Source `calculateAssetValue`: `techAssets.reduce((total, asset) =>
total + (asset.value_score || 0), 0)`. -/
def calculateAssetValue (s : BalanceSheetState) : ℚ :=
  s.techAssets.foldl (fun total asset => total + jsOrZero asset.value_score) 0

/-- Source `calculateNetAssetValue`: `techNetAssets.reduce((total, asset) =>
total + (asset.mastery_score || 0), 0)`. -/
def calculateNetAssetValue (s : BalanceSheetState) : ℚ :=
  s.techNetAssets.foldl (fun total asset => total + jsOrZero asset.mastery_score) 0

/-- Source `calculateDebtValue`: `techDebts.reduce((total, debt) =>
total + (debt.importance_score || 0), 0)`. -/
def calculateDebtValue (s : BalanceSheetState) : ℚ :=
  s.techDebts.foldl (fun total debt => total + jsOrZero debt.importance_score) 0

/-- Source `getNetTechEquity`: returns `calculateNetAssetValue()`. -/
def getNetTechEquity (s : BalanceSheetState) : ℚ :=
  calculateNetAssetValue s

/-- Source `getLeverageRatio`: `0` when the net-asset total is `0`, otherwise
`calculateDebtValue() / netAssets`. -/
def getLeverageRatio (s : BalanceSheetState) : ℚ :=
  let netAssets := calculateNetAssetValue s
  if netAssets = 0 then 0 else calculateDebtValue s / netAssets

/-- The qualitative leverage bands of the spec. -/
inductive LeverageBand where
  | none
  | low
  | moderate
  | high
  | critical
deriving DecidableEq, Repr

/-- The branching shared by `getLeverageEmoji` and `getLeverageDescription`:
`ratio === 0`, then `ratio <= 0.3`, `<= 0.7`, `<= 1.2`, else the last band. -/
def leverageBand (ratio : ℚ) : LeverageBand :=
  if ratio = 0 then .none
  else if ratio ≤ 3/10 then .low
  else if ratio ≤ 7/10 then .moderate
  else if ratio ≤ 12/10 then .high
  else .critical

/-- The emoji each band renders as in `getLeverageEmoji`. -/
def bandEmoji : LeverageBand → String
  | .none => "🟢"
  | .low => "🟡"
  | .moderate => "🟠"
  | .high => "🔴"
  | .critical => "💀"

/-- The rationale string each band renders as in `getLeverageDescription`. -/
def bandDescription : LeverageBand → String
  | .none => "无杠杆 - 保守稳健"
  | .low => "低杠杆 - 可适度增加学习挑战"
  | .moderate => "适中杠杆 - 理想的学习状态"
  | .high => "高杠杆 - 需要巩固基础"
  | .critical => "危险杠杆 - 急需降低学习负债"

/-- Source `getLeverageEmoji`, literally. -/
def getLeverageEmoji (ratio : ℚ) : String :=
  if ratio = 0 then "🟢"
  else if ratio ≤ 3/10 then "🟡"
  else if ratio ≤ 7/10 then "🟠"
  else if ratio ≤ 12/10 then "🔴"
  else "💀"

/-- Source `getLeverageDescription`, literally. -/
def getLeverageDescription (ratio : ℚ) : String :=
  if ratio = 0 then "无杠杆 - 保守稳健"
  else if ratio ≤ 3/10 then "低杠杆 - 可适度增加学习挑战"
  else if ratio ≤ 7/10 then "适中杠杆 - 理想的学习状态"
  else if ratio ≤ 12/10 then "高杠杆 - 需要巩固基础"
  else "危险杠杆 - 急需降低学习负债"

/-- The five numeric summary metrics of the balance sheet, bundled:
asset total, net-asset total, debt total, net tech equity, leverage ratio. -/
def fullSummary (s : BalanceSheetState) : ℚ × ℚ × ℚ × ℚ × ℚ :=
  (calculateAssetValue s, calculateNetAssetValue s, calculateDebtValue s,
    getNetTechEquity s, getLeverageRatio s)

/-- The fallback summary built inline in `loadBalanceSheetData` when
`getUserDebtSummary` rejects (lines 76-88): all-zero core, empty
distributions. -/
def fallbackDebtSummary : TechnicalDebtSummary :=
  { summary :=
      { total_debts := 0
        open_debts := 0
        resolved_debts := 0
        resolution_rate := 0
        total_impact_score := 0
        total_estimated_effort_minutes := 0
        total_estimated_effort_hours := 0 }
    severity_distribution := []
    type_distribution := [] }

/-! ## CodeDebt status state machine (Ledger Facade)

The backend that enforces the state machine is not part of the analyzed
frontend sources; only its client (`updateTechnicalDebt`, which PUTs the
patch) and the status enum are. The machine itself is modelled from the
spec. -/

/-- Modelled from the spec: the allowed CodeDebt status transitions of
§4.6 — `open → in_progress → resolved`, `open → ignored`,
`open → wont_fix`, `in_progress → ignored`; `resolved`, `ignored` and
`wont_fix` are terminal. The enforcing backend code is missing from the
sources. -/
def allowedTransition : DebtStatus → DebtStatus → Bool
  | .opened, .in_progress => true
  | .opened, .ignored => true
  | .opened, .wont_fix => true
  | .in_progress, .resolved => true
  | .in_progress, .ignored => true
  | _, _ => false

/-- Typed failures of a status update. -/
inductive DebtUpdateError where
  | InvalidTransition (source target : DebtStatus)
deriving DecidableEq, Repr

/-- Modelled from the spec: the status-update path behind
`updateTechnicalDebt`. An allowed transition returns the patched record
(setting `resolved_at := now` on a transition into `resolved`); a
disallowed one fails with `InvalidTransition` naming the attempted source
and target states, producing no updated record. -/
def updateDebtStatus (now : ℤ) (r : TechnicalDebt) (target : DebtStatus) :
    Except DebtUpdateError TechnicalDebt :=
  if allowedTransition r.status target then
    .ok { r with
            status := target
            resolved_at := if target = .resolved then some now else r.resolved_at }
  else
    .error (.InvalidTransition r.status target)

/-- Modelled from the spec: `age_days` as `(resolved_at ?? now) −
first_detected` (§3). Used to compare against the `age_days` field the
source stores on the record. -/
def specDerivedAgeDays (r : TechnicalDebt) (now : ℤ) : ℤ :=
  (r.resolved_at.getD now) - r.first_detected

/-- Record `r` with only the stored `age_days` field replaced: the record shape
puts no constraint between `age_days` and the timestamps. -/
def setAgeDays (r : TechnicalDebt) (a : ℚ) : TechnicalDebt :=
  { r with age_days := a }

/-! ## Active-record fetching

`loadBalanceSheetData` requests each record list with `is_active: true`;
the filtering itself happens behind `learningService`, outside the
frontend sources. -/

/-- A stored record together with its `is_active` archival flag. -/
structure Flagged (α : Type) where
  record : α
  is_active : Bool
deriving DecidableEq, Repr

/-- Modelled from the spec: a `learningService` query with
`is_active: true` returns exactly the stored records whose `is_active`
flag is set. -/
def fetchActive {α : Type} (store : List (Flagged α)) : List α :=
  (store.filter (fun f => f.is_active)).map (fun f => f.record)

/-- The component state after `loadBalanceSheetData` succeeds against the
given stores: each list holds the active records of its store. -/
def loadedState (summary : TechnicalDebtSummary)
    (assetStore : List (Flagged TechAsset))
    (netAssetStore : List (Flagged TechNetAsset))
    (debtStore : List (Flagged TechDebt)) : BalanceSheetState :=
  { debtSummary := some summary
    techAssets := fetchActive assetStore
    techNetAssets := fetchActive netAssetStore
    techDebts := fetchActive debtStore
    loading := false
    error := none }

/-! ## Spec-modelled scoring and rates -/

/-- Modelled from the spec: the base weight per `completion_status` of
§4.2 — `not_started` = 0, `in_progress` = 0.4 × full, `completed` =
1.0 × full. The per-asset scoring lives in the backend; the frontend only
sums the server-provided `value_score`. -/
def baseWeight (status : CompletionStatus) (full : ℚ) : ℚ :=
  match status with
  | .not_started => 0
  | .in_progress => 4/10 * full
  | .completed => full

/-- Modelled from the spec: `asset_value` of §4.2 — base weight times
`(1 − ai_assistance_level/100 × discount_factor)`, clamped to `≥ 0`. -/
def asset_value (full discount_factor : ℚ) (status : CompletionStatus)
    (ai_assistance_level : ℚ) : ℚ :=
  max 0 (baseWeight status full * (1 - ai_assistance_level / 100 * discount_factor))

/-- Modelled from the spec: `resolution_rate = resolved_count /
total_count × 100`, `0` when `total_count = 0` (§4.3); the computing
backend is missing from the sources. -/
def resolutionRate (resolved_count total_count : Nat) : ℚ :=
  if total_count = 0 then 0
  else (resolved_count : ℚ) / (total_count : ℚ) * 100

/-! ## Code records page (handleDeleteRecord) -/

/-- The code-record shape built by `handleAddRecord` on the code-record
page. -/
structure CodeRecord where
  id : Nat
  title : String
  description : String
  code : String
  tags : List String
  language : String
  createdAt : String
  updatedAt : String
deriving DecidableEq, Repr

/-- Source `handleDeleteRecord`: `setRecords(records.filter(record =>
record.id !== id))` — keeps only the records whose id differs. -/
def handleDeleteRecord (records : List CodeRecord) (i : Nat) : List CodeRecord :=
  records.filter (fun record => record.id != i)

/-! ## Learning-center question accuracy -/

/-- The fields of a learning question the accuracy display reads. -/
structure LearningQuestion where
  id : Nat
  question_type : String
  estimated_time : ℚ
  attempt_count : Nat
  correct_count : Nat
deriving DecidableEq, Repr

/-- The accuracy percentage rendered by `LearningCenter`:
`attempt_count > 0 ? (correct_count / attempt_count) * 100 : '0'`. -/
def displayedAccuracy (q : LearningQuestion) : ℚ :=
  if q.attempt_count > 0 then
    ((q.correct_count : ℚ) / (q.attempt_count : ℚ)) * 100
  else 0

/-! ## Concrete sample data for witnesses and counterexamples -/

/-- Scenario B of the spec: one mastered skill worth 10, one learning
debt worth 15 — leverage ratio 1.5. -/
def scenarioBState : BalanceSheetState :=
  { debtSummary := none
    techAssets := []
    techNetAssets :=
      [{ id := 1, technology_name := "React", proficiency_level := "advanced",
         proficiency_score := 80, category := "frontend", mastery_score := 10 }]
    techDebts :=
      [{ id := 2, technology_name := "Rust", urgency_level := "high",
         importance_score := 15, target_proficiency_level := "advanced",
         estimated_learning_hours := 40 }]
    loading := false
    error := none }

/-- The same snapshot as `scenarioBState` but with different auxiliary
UI fields (loading flag, error message, fallback summary). -/
def scenarioBStateLoading : BalanceSheetState :=
  { scenarioBState with
      loading := true
      error := some "retrying"
      debtSummary := some fallbackDebtSummary }

/-- A state with zero records in every ledger. -/
def emptyLedgerState : BalanceSheetState :=
  { debtSummary := some fallbackDebtSummary
    techAssets := []
    techNetAssets := []
    techDebts := []
    loading := false
    error := none }

/-- A resolved CodeDebt record: detected at time 0, resolved at time 3. -/
def resolvedSampleDebt : TechnicalDebt :=
  { id := 7, code_record_id := 3, title := "Long function",
    description := "refactor into smaller pieces", debt_type := "code_smell",
    category := some "maintainability", file_path := some "src/app.ts",
    line_start := some 10, line_end := some 60, severity := .critical,
    priority := 1, impact_score := 8, effort_estimate := 120,
    status := .resolved, age_days := 3, created_at := 0,
    first_detected := 0, resolved_at := some 3 }

/-- A well-formed record whose stored `age_days` (5) disagrees with the
value derived from its timestamps (3). -/
def driftedDebt : TechnicalDebt :=
  { resolvedSampleDebt with age_days := 5 }

/-- A sample code record with id 1. -/
def sampleCodeRecord : CodeRecord :=
  { id := 1, title := "Auth middleware", description := "JWT check",
    code := "const authenticateToken = ...", tags := ["JWT"],
    language := "javascript", createdAt := "2024-01-15",
    updatedAt := "2024-01-15" }

/-- A second sample code record with id 2. -/
def otherCodeRecord : CodeRecord :=
  { id := 2, title := "Form validation hook", description := "custom hook",
    code := "const useFormValidation = ...", tags := ["React"],
    language := "javascript", createdAt := "2024-01-12",
    updatedAt := "2024-01-14" }

/-- The sample store of code records. -/
def sampleCodeRecords : List CodeRecord :=
  [sampleCodeRecord, otherCodeRecord]

/-- An active flagged net asset with mastery 10. -/
def activeFlaggedNetAsset : Flagged TechNetAsset :=
  { record :=
      { id := 1, technology_name := "React", proficiency_level := "advanced",
        proficiency_score := 80, category := "frontend", mastery_score := 10 }
    is_active := true }

/-- An inactive flagged net asset with mastery 99 (must not count). -/
def inactiveFlaggedNetAsset : Flagged TechNetAsset :=
  { record :=
      { id := 2, technology_name := "Cobol", proficiency_level := "expert",
        proficiency_score := 99, category := "legacy", mastery_score := 99 }
    is_active := false }

/-- A sample net-asset store with one active and one inactive record. -/
def sampleNetAssetStore : List (Flagged TechNetAsset) :=
  [activeFlaggedNetAsset, inactiveFlaggedNetAsset]

/-- A question attempted 4 times, 3 of them correctly. -/
def sampleQuestion : LearningQuestion :=
  { id := 1, question_type := "choice", estimated_time := 10,
    attempt_count := 4, correct_count := 3 }

/-- A never-attempted question. -/
def zeroAttemptQuestion : LearningQuestion :=
  { id := 2, question_type := "choice", estimated_time := 5,
    attempt_count := 0, correct_count := 0 }

/-! ## Helper lemmas -/

/-- On rationals (no `undefined`/`NaN`), the JavaScript `|| 0` guard is
the identity. -/
theorem jsOrZero_eq (x : ℚ) : jsOrZero x = x := by
  unfold jsOrZero
  split
  · exact (by assumption : x = 0).symm
  · rfl

/-- A left fold accumulating `f` over a list is the initial value plus
the sum of the mapped list. -/
theorem foldl_add_map {α : Type} (f : α → ℚ) (l : List α) (c : ℚ) :
    l.foldl (fun t a => t + f a) c = c + (l.map f).sum := by
  induction l generalizing c with
  | nil => simp
  | cons a l ih =>
    simp only [List.foldl_cons, List.map_cons, List.sum_cons, ih]
    ring

/-- From a resolved status, no transition is allowed. -/
theorem allowedTransition_resolved_false (t : DebtStatus) :
    allowedTransition .resolved t = false := by
  cases t <;> rfl

/-! ## Claim theorems -/

/-- C1: the leverage ratio is the skill-debt total divided by the
net-asset total whenever the net-asset total is strictly positive (the
divisor then being provably nonzero), and is 0 whenever the net-asset
total is 0, regardless of the debt total. Both branches are total
computations on rationals, so the result is always a defined number. -/
theorem leverage_ratio_cases (s : BalanceSheetState) :
    (calculateNetAssetValue s = 0 → getLeverageRatio s = 0) ∧
    (0 < calculateNetAssetValue s →
      getLeverageRatio s = calculateDebtValue s / calculateNetAssetValue s ∧
      calculateNetAssetValue s ≠ 0) := by
  constructor
  · intro h
    simp [getLeverageRatio, h]
  · intro h
    have hne : calculateNetAssetValue s ≠ 0 := ne_of_gt h
    exact ⟨by simp [getLeverageRatio, hne], hne⟩

/-- Witness for C1: on the empty ledger the ratio is 0; on scenario B the
ratio is the debt total over the positive net-asset total. -/
theorem leverage_ratio_cases_witness :
    calculateNetAssetValue emptyLedgerState = 0 ∧
    getLeverageRatio emptyLedgerState = 0 ∧
    0 < calculateNetAssetValue scenarioBState ∧
    getLeverageRatio scenarioBState
      = calculateDebtValue scenarioBState / calculateNetAssetValue scenarioBState :=
  ⟨rfl, (leverage_ratio_cases emptyLedgerState).1 rfl,
    by norm_num [calculateNetAssetValue, scenarioBState, jsOrZero],
    ((leverage_ratio_cases scenarioBState).2
      (by norm_num [calculateNetAssetValue, scenarioBState, jsOrZero])).1⟩

/-- C2: the band classification of the leverage ratio — exactly 0 is
`none`, (0, 0.3] is `low`, (0.3, 0.7] is `moderate`, (0.7, 1.2] is
`high`, above 1.2 is `critical` — and both `getLeverageEmoji` and
`getLeverageDescription` render exactly the band's fixed string. -/
theorem leverage_band_classification (r : ℚ) :
    (r = 0 → leverageBand r = .none) ∧
    (0 < r → r ≤ 3/10 → leverageBand r = .low) ∧
    (3/10 < r → r ≤ 7/10 → leverageBand r = .moderate) ∧
    (7/10 < r → r ≤ 12/10 → leverageBand r = .high) ∧
    (12/10 < r → leverageBand r = .critical) ∧
    getLeverageEmoji r = bandEmoji (leverageBand r) ∧
    getLeverageDescription r = bandDescription (leverageBand r) := by
  refine ⟨?_, ?_, ?_, ?_, ?_, ?_, ?_⟩
  · intro h
    simp [leverageBand, h]
  · intro h1 h2
    unfold leverageBand
    rw [if_neg (by linarith), if_pos h2]
  · intro h1 h2
    unfold leverageBand
    rw [if_neg (by linarith), if_neg (by linarith), if_pos h2]
  · intro h1 h2
    unfold leverageBand
    rw [if_neg (by linarith), if_neg (by linarith), if_neg (by linarith),
      if_pos h2]
  · intro h
    unfold leverageBand
    rw [if_neg (by linarith), if_neg (by linarith), if_neg (by linarith),
      if_neg (by linarith)]
  · unfold getLeverageEmoji leverageBand
    split_ifs <;> rfl
  · unfold getLeverageDescription leverageBand
    split_ifs <;> rfl

/-- Witness for C2: scenario B (net 10, debt 15) yields ratio 1.5, which
exceeds 1.2 and is classified `critical`. -/
theorem leverage_band_classification_witness :
    getLeverageRatio scenarioBState = 3/2 ∧
    (12/10 : ℚ) < 3/2 ∧
    leverageBand (3/2) = .critical :=
  ⟨by norm_num [getLeverageRatio, calculateNetAssetValue, calculateDebtValue,
      scenarioBState, jsOrZero],
    by norm_num,
    (leverage_band_classification (3/2)).2.2.2.2.1 (by norm_num)⟩

/-- C3: from a record whose status is `resolved`, every attempted status
update fails with `InvalidTransition` naming the source (`resolved`) and
the attempted target; no updated record is produced, so the stored record
is unchanged. -/
theorem resolved_status_is_terminal (now : ℤ) (r : TechnicalDebt)
    (t : DebtStatus) (h : r.status = .resolved) :
    updateDebtStatus now r t = .error (.InvalidTransition .resolved t) := by
  unfold updateDebtStatus
  rw [h, allowedTransition_resolved_false]
  simp

/-- Witness for C3: the attempted `resolved → in_progress` reopening of a
concrete resolved record fails with the named `InvalidTransition`. -/
theorem resolved_status_is_terminal_witness :
    resolvedSampleDebt.status = .resolved ∧
    updateDebtStatus 5 resolvedSampleDebt .in_progress
      = .error (.InvalidTransition .resolved .in_progress) :=
  ⟨rfl, resolved_status_is_terminal 5 resolvedSampleDebt .in_progress rfl⟩

/-- C4 counterexample: deleting id 1 from the sample store physically
removes the record — the store afterwards is just the other record, and
the deleted record is not retrievable (no inactive copy exists: the
record shape has no archival flag at all). This refutes the claim that
every record ever created remains in the store. -/
theorem delete_physically_removes :
    sampleCodeRecord ∈ sampleCodeRecords ∧
    handleDeleteRecord sampleCodeRecords 1 = [otherCodeRecord] ∧
    sampleCodeRecord ∉ handleDeleteRecord sampleCodeRecords 1 := by
  refine ⟨by decide, by decide, ?_⟩
  intro h
  simp [handleDeleteRecord, sampleCodeRecords, sampleCodeRecord,
    otherCodeRecord] at h

/-- C4 amended: `handleDeleteRecord` physically removes exactly the
records carrying the given id and keeps every other record: the result
holds precisely the original records whose id differs from the deleted
one. -/
theorem delete_filters_by_id (records : List CodeRecord) (i : Nat) :
    (∀ r, r ∈ handleDeleteRecord records i → r ∈ records ∧ r.id ≠ i) ∧
    (∀ r, r ∈ records → r.id ≠ i → r ∈ handleDeleteRecord records i) := by
  constructor
  · intro r hr
    unfold handleDeleteRecord at hr
    rw [List.mem_filter] at hr
    refine ⟨hr.1, ?_⟩
    simpa using hr.2
  · intro r hr hne
    unfold handleDeleteRecord
    rw [List.mem_filter]
    exact ⟨hr, by simpa using hne⟩

/-- Witness for the amended C4: the record with the other id survives the
deletion. -/
theorem delete_filters_by_id_witness :
    otherCodeRecord ∈ sampleCodeRecords ∧
    otherCodeRecord.id ≠ 1 ∧
    otherCodeRecord ∈ handleDeleteRecord sampleCodeRecords 1 :=
  ⟨by decide, by decide,
    (delete_filters_by_id sampleCodeRecords 1).2 otherCodeRecord
      (by decide) (by decide)⟩

/-- C5 counterexample: a well-formed `TechnicalDebt` value whose stored
`age_days` (5) differs from the value derived from its own timestamps
(`resolved_at` 3 minus `first_detected` 0), at any `now` (here 10): the
record shape stores `age_days` as an independent field, so it can drift
from the timestamps, refuting the claim. -/
theorem age_days_drifts :
    driftedDebt.age_days ≠ ((specDerivedAgeDays driftedDebt 10 : ℤ) : ℚ) := by
  norm_num [driftedDebt, resolvedSampleDebt, specDerivedAgeDays]

/-- C5 amended: `age_days` is stored as an independent field of the
`TechnicalDebt` record: every combination of `age_days`, `first_detected`
and `resolved_at` is representable, and overwriting `age_days` alone
leaves the timestamps and status untouched — the record shape places no
constraint tying the field to the derived quantity. -/
theorem age_days_is_independent_field (a : ℚ) (fd : ℤ) (ra : Option ℤ) :
    (∃ r : TechnicalDebt, r.age_days = a ∧ r.first_detected = fd ∧
      r.resolved_at = ra) ∧
    (∀ r : TechnicalDebt,
      (setAgeDays r a).age_days = a ∧
      (setAgeDays r a).first_detected = r.first_detected ∧
      (setAgeDays r a).resolved_at = r.resolved_at ∧
      (setAgeDays r a).status = r.status) :=
  ⟨⟨{ driftedDebt with age_days := a, first_detected := fd, resolved_at := ra },
      rfl, rfl, rfl⟩,
    fun _ => ⟨rfl, rfl, rfl, rfl⟩⟩

/-- C6: the spec-modelled `asset_value` is the per-status base weight
times the AI-assistance discount, clamped to be nonnegative; it is always
`≥ 0`, and for a nonnegative full weight and a discount factor in [0,1]
it is non-increasing in `ai_assistance_level`. -/
theorem asset_value_spec (full d : ℚ) (st : CompletionStatus) (ai ai2 : ℚ)
    (hfull : 0 ≤ full) (hd0 : 0 ≤ d) (_hd1 : d ≤ 1) :
    asset_value full d st ai
        = max 0 (baseWeight st full * (1 - ai / 100 * d)) ∧
    0 ≤ asset_value full d st ai ∧
    (ai ≤ ai2 → asset_value full d st ai2 ≤ asset_value full d st ai) := by
  refine ⟨rfl, le_max_left 0 _, ?_⟩
  intro hle
  have hbw : 0 ≤ baseWeight st full := by
    cases st
    · simp [baseWeight]
    · show (0:ℚ) ≤ 4/10 * full
      linarith
    · exact hfull
  have hdisc : 1 - ai2 / 100 * d ≤ 1 - ai / 100 * d := by
    have h1 : ai / 100 ≤ ai2 / 100 := by linarith
    have h2 : ai / 100 * d ≤ ai2 / 100 * d :=
      mul_le_mul_of_nonneg_right h1 hd0
    linarith
  have hmul : baseWeight st full * (1 - ai2 / 100 * d)
      ≤ baseWeight st full * (1 - ai / 100 * d) :=
    mul_le_mul_of_nonneg_left hdisc hbw
  unfold asset_value
  exact max_le_max le_rfl hmul

/-- Witness for C6: at full weight 10, discount factor 1/2, status
`completed`, raising the AI assistance level from 20 to 80 does not raise
the asset value, and the value stays nonnegative. -/
theorem asset_value_spec_witness :
    (0:ℚ) ≤ 10 ∧ (0:ℚ) ≤ 1/2 ∧ (1/2:ℚ) ≤ 1 ∧ (20:ℚ) ≤ 80 ∧
    0 ≤ asset_value 10 (1/2) .completed 20 ∧
    asset_value 10 (1/2) .completed 80 ≤ asset_value 10 (1/2) .completed 20 :=
  ⟨by norm_num, by norm_num, by norm_num, by norm_num,
    (asset_value_spec 10 (1/2) .completed 20 80 (by norm_num) (by norm_num)
      (by norm_num)).2.1,
    (asset_value_spec 10 (1/2) .completed 20 80 (by norm_num) (by norm_num)
      (by norm_num)).2.2 (by norm_num)⟩

/-- C7: aggregation on an empty ledger returns all-zero totals and a
zero leverage ratio without any failure; the fetch-failure fallback
summary is all-zero with empty distributions; and the resolution rate is
0 when the total count is 0 and divides only by a provably nonzero total
otherwise. -/
theorem empty_ledger_never_fails :
    (∀ s : BalanceSheetState,
      s.techAssets = [] → s.techNetAssets = [] → s.techDebts = [] →
      fullSummary s = (0, 0, 0, 0, 0)) ∧
    fallbackDebtSummary.summary.total_debts = 0 ∧
    fallbackDebtSummary.summary.open_debts = 0 ∧
    fallbackDebtSummary.summary.resolved_debts = 0 ∧
    fallbackDebtSummary.summary.resolution_rate = 0 ∧
    fallbackDebtSummary.summary.total_impact_score = 0 ∧
    fallbackDebtSummary.severity_distribution = [] ∧
    fallbackDebtSummary.type_distribution = [] ∧
    (∀ rc : Nat, resolutionRate rc 0 = 0) ∧
    (∀ rc tc : Nat, 0 < tc →
      resolutionRate rc tc = (rc : ℚ) / (tc : ℚ) * 100 ∧ (tc : ℚ) ≠ 0) := by
  refine ⟨?_, rfl, rfl, rfl, rfl, rfl, rfl, rfl, ?_, ?_⟩
  · intro s h1 h2 h3
    simp [fullSummary, calculateAssetValue, calculateNetAssetValue,
      calculateDebtValue, getNetTechEquity, getLeverageRatio, h1, h2, h3]
  · intro rc
    simp [resolutionRate]
  · intro rc tc htc
    have hne : tc ≠ 0 := Nat.pos_iff_ne_zero.mp htc
    exact ⟨by simp [resolutionRate, hne], Nat.cast_ne_zero.mpr hne⟩

/-- Witness for C7: the concrete empty-ledger state yields the all-zero
summary, and a concrete nonzero total (4, with 3 resolved) divides by a
nonzero denominator. -/
theorem empty_ledger_never_fails_witness :
    emptyLedgerState.techAssets = [] ∧
    fullSummary emptyLedgerState = (0, 0, 0, 0, 0) ∧
    resolutionRate 3 0 = 0 ∧
    0 < 4 ∧
    resolutionRate 3 4 = (3 : ℚ) / (4 : ℚ) * 100 :=
  ⟨rfl,
    empty_ledger_never_fails.1 emptyLedgerState rfl rfl rfl,
    (empty_ledger_never_fails.2.2.2.2.2.2.2.2.1) 3,
    by norm_num,
    ((empty_ledger_never_fails.2.2.2.2.2.2.2.2.2) 3 4 (by norm_num)).1⟩

/-- C8: the five summary metrics are a pure function of the snapshot's
record lists — two states agreeing on the fetched asset, net-asset and
debt lists produce identical summaries, whatever their other fields
(loading flag, error message, cached debt summary) are; there is no
hidden randomness or time dependence. -/
theorem summary_depends_only_on_records (s1 s2 : BalanceSheetState)
    (ha : s1.techAssets = s2.techAssets)
    (hn : s1.techNetAssets = s2.techNetAssets)
    (hd : s1.techDebts = s2.techDebts) :
    fullSummary s1 = fullSummary s2 := by
  simp [fullSummary, calculateAssetValue, calculateNetAssetValue,
    calculateDebtValue, getNetTechEquity, getLeverageRatio, ha, hn, hd]

/-- Witness for C8: scenario B and its loading variant share the record
lists and get bit-identical summaries. -/
theorem summary_depends_only_on_records_witness :
    scenarioBState.techAssets = scenarioBStateLoading.techAssets ∧
    scenarioBState.techNetAssets = scenarioBStateLoading.techNetAssets ∧
    scenarioBState.techDebts = scenarioBStateLoading.techDebts ∧
    fullSummary scenarioBState = fullSummary scenarioBStateLoading :=
  ⟨rfl, rfl, rfl,
    summary_depends_only_on_records scenarioBState scenarioBStateLoading
      rfl rfl rfl⟩

/-- C9: on a state loaded from the stores, the net tech equity is the
net-asset total, which is the sum of `mastery_score` over exactly the
active stored NetAsset records; prepending an inactive record to the
store leaves the equity unchanged. -/
theorem net_equity_sums_active_mastery (summary : TechnicalDebtSummary)
    (assetStore : List (Flagged TechAsset))
    (netAssetStore : List (Flagged TechNetAsset))
    (debtStore : List (Flagged TechDebt)) :
    getNetTechEquity (loadedState summary assetStore netAssetStore debtStore)
        = calculateNetAssetValue
            (loadedState summary assetStore netAssetStore debtStore) ∧
    calculateNetAssetValue (loadedState summary assetStore netAssetStore debtStore)
        = ((netAssetStore.filter (fun f => f.is_active)).map
            (fun f => f.record.mastery_score)).sum ∧
    (∀ f : Flagged TechNetAsset, f.is_active = false →
      getNetTechEquity
          (loadedState summary assetStore (f :: netAssetStore) debtStore)
        = getNetTechEquity
            (loadedState summary assetStore netAssetStore debtStore)) := by
  refine ⟨rfl, ?_, ?_⟩
  · simp [calculateNetAssetValue, loadedState, fetchActive, foldl_add_map,
      jsOrZero_eq, List.map_map, Function.comp_def]
  · intro f hf
    simp [getNetTechEquity, calculateNetAssetValue, loadedState, fetchActive,
      List.filter_cons, hf]

/-- Witness for C9: with one active record (mastery 10) and one inactive
record (mastery 99) in the store, the equity is 10, and prepending
another inactive record changes nothing. -/
theorem net_equity_sums_active_mastery_witness :
    inactiveFlaggedNetAsset.is_active = false ∧
    getNetTechEquity (loadedState fallbackDebtSummary [] sampleNetAssetStore [])
      = 10 ∧
    getNetTechEquity
        (loadedState fallbackDebtSummary []
          (inactiveFlaggedNetAsset :: sampleNetAssetStore) [])
      = getNetTechEquity
          (loadedState fallbackDebtSummary [] sampleNetAssetStore []) :=
  ⟨rfl,
    by norm_num [getNetTechEquity, calculateNetAssetValue, loadedState,
      fetchActive, sampleNetAssetStore, activeFlaggedNetAsset,
      inactiveFlaggedNetAsset, jsOrZero],
    (net_equity_sums_active_mastery fallbackDebtSummary [] sampleNetAssetStore
      []).2.2 inactiveFlaggedNetAsset rfl⟩

/-- C10: the displayed accuracy of a question is
`(correct_count / attempt_count) × 100` only when `attempt_count > 0`
(the cast divisor then being provably nonzero) and is 0 when
`attempt_count = 0`, so the division is never evaluated with a zero
divisor. -/
theorem accuracy_division_guarded (q : LearningQuestion) :
    (q.attempt_count = 0 → displayedAccuracy q = 0) ∧
    (0 < q.attempt_count →
      displayedAccuracy q
          = ((q.correct_count : ℚ) / (q.attempt_count : ℚ)) * 100 ∧
      (q.attempt_count : ℚ) ≠ 0) := by
  constructor
  · intro h
    simp [displayedAccuracy, h]
  · intro h
    refine ⟨by simp [displayedAccuracy, h], ?_⟩
    exact Nat.cast_ne_zero.mpr (Nat.pos_iff_ne_zero.mp h)

/-- Witness for C10: the never-attempted question displays 0; the
question attempted 4 times displays 3/4 × 100 with nonzero divisor. -/
theorem accuracy_division_guarded_witness :
    zeroAttemptQuestion.attempt_count = 0 ∧
    displayedAccuracy zeroAttemptQuestion = 0 ∧
    0 < sampleQuestion.attempt_count ∧
    displayedAccuracy sampleQuestion
      = ((3 : ℚ) / (4 : ℚ)) * 100 :=
  ⟨rfl,
    (accuracy_division_guarded zeroAttemptQuestion).1 rfl,
    by norm_num [sampleQuestion],
    ((accuracy_division_guarded sampleQuestion).2
      (by norm_num [sampleQuestion])).1⟩
